import Mathlib

set_option maxRecDepth 100000

/-
  Verification of the wmalloc heap engine (src/wmalloc.h).

  The engine is shallowly embedded as a state machine.  Memory is modelled
  at word granularity: `State.mem a` is the 64-bit word stored at byte
  address `a`; every access the embedded code performs in the executions
  below is at pairwise non-overlapping addresses, so the word map is a
  faithful picture of the byte-level heap.  Pointers are natural numbers
  with 0 playing the role of NULL, and every arithmetic step that the C
  source performs on `uint64_t` values is taken modulo 2^64.  The results
  of the two OS primitives (`sbrk`, `mmap`) are supplied by per-call
  oracle lists carried in the state; the value 2^64 - 1 stands for the
  failure sentinel that the C source compares against.
-/

namespace WMalloc

/-- 2^64, the modulus of the `uint64_t` arithmetic used throughout wmalloc.h. -/
def W64 : Nat := 18446744073709551616

/-- 0x8000000000000000, the in-use flag bit carried in the top bit of a
boundary size word. -/
def TOP : Nat := 9223372036854775808

/-- CHUNK_OVERHEAD from wmalloc.h. -/
def CHUNK_OVERHEAD : Nat := 24

/-- NUM_BINS from wmalloc.h. -/
def NUM_BINS : Nat := 46

/-- MMAP_SIZE (0x20000) from wmalloc.h: the minimum mmap request. -/
def MMAP_SIZE : Nat := 131072

/-- PAGE_SIZE (0x1000) from wmalloc.h. -/
def PAGE_SIZE : Nat := 4096

/-- MINIMUM_CHUNK_SIZE from wmalloc.h. -/
def MINIMUM_CHUNK_SIZE : Nat := 40

/-- The machine state: the word-addressed memory, the global `wmalloc_ptr`
(0 = NULL = uninitialized), and the pending results of the `sbrk` and
`mmap` OS primitives, consumed one per call; an exhausted list yields the
failure sentinel 2^64 - 1, i.e. `(void * ) -1`. -/
structure State where
  mem : Nat → Nat
  wmalloc_ptr : Nat
  sbrks : List Nat
  mmaps : List Nat

/-- Read the 64-bit word at byte address `a`. -/
def readW (s : State) (a : Nat) : Nat := s.mem a

/-- Write the 64-bit word `v` at byte address `a` (values are kept below 2^64). -/
def writeW (s : State) (a v : Nat) : State :=
  { s with mem := fun x => if x = a then v % W64 else s.mem x }

/-
  `struct chunk` layout (wmalloc.h lines 147-153):
    offset 0  : prev_chunk_size (with in-use flag of the previous chunk in the top bit)
    offset 8  : curr_chunk_size
    offset 16 : left_ptr
    offset 24 : right_ptr
  The trailing size word of a chunk of size S sits at offset S - 8.
-/

/-- is_prev_available (wmalloc.h lines 297-311): 1 when the in-memory
predecessor exists (leading word nonzero) and its flag bit (bit 63) is 0. -/
def is_prev_available (s : State) (ch : Nat) : Nat :=
  let prev_chunk_size := readW s ch
  if prev_chunk_size ≠ 0 then
    if prev_chunk_size / TOP = 0 then 1 else 0
  else 0

/-- is_next_available (wmalloc.h lines 318-335): reads the trailing word at
`ch + curr_chunk_size - 8` and tests its top bit. -/
def is_next_available (s : State) (ch : Nat) : Nat :=
  let address := (ch + readW s (ch + 8) + W64 - 8) % W64
  let w := readW s address
  if w ≠ 0 then
    if w / TOP = 0 then 1 else 0
  else 0

/-- set_prev_chunk_size (wmalloc.h lines 342-351): stores a new size in the
leading word while preserving whatever flag bit is currently there. -/
def set_prev_chunk_size (s : State) (ch v : Nat) : State :=
  let flag := readW s ch / TOP * TOP
  writeW s ch (v + flag)

/-- set_next_chunk_size (wmalloc.h lines 359-373): stores a new size in the
trailing word at `ch + curr_chunk_size - 8`, preserving the flag bit found
in that word. -/
def set_next_chunk_size (s : State) (ch v : Nat) : State :=
  let address := (ch + readW s (ch + 8) + W64 - 8) % W64
  let flag := readW s address / TOP * TOP
  writeW s address (v + flag)

/-- get_prev_chunk_size (wmalloc.h lines 379-388): leading word with the
flag bit masked off (`and` with 0x7fffffffffffffff = mod 2^63). -/
def get_prev_chunk_size (s : State) (ch : Nat) : Nat :=
  readW s ch % TOP

/-- get_next_chunk_size (wmalloc.h lines 393-405): trailing word with the
flag bit masked off. -/
def get_next_chunk_size (s : State) (ch : Nat) : Nat :=
  readW s ((ch + readW s (ch + 8) + W64 - 8) % W64) % TOP

/-- get_prev_chunk (wmalloc.h lines 410-421): `ch` minus the masked leading
size, in `uint64_t` arithmetic. -/
def get_prev_chunk (s : State) (ch : Nat) : Nat :=
  (ch + W64 - get_prev_chunk_size s ch) % W64

/-- get_next_chunk (wmalloc.h lines 426-437): `ch` plus its own size. -/
def get_next_chunk (s : State) (ch : Nat) : Nat :=
  (ch + readW s (ch + 8)) % W64

/-- Auxiliary: `w xor 0x8000000000000000` for `w < 2^64`. -/
def xor_top (w : Nat) : Nat :=
  if w < TOP then w + TOP else w - TOP

/-- set_prev_flag (wmalloc.h lines 445-460).  Note the asymmetry of the C
source: flag argument 1 clears the top bit (an `and` mask) while flag
argument 0 toggles it (an `xor`). -/
def set_prev_flag (s : State) (ch flag : Nat) : State :=
  if flag = 1 then writeW s ch (readW s ch % TOP)
  else writeW s ch (xor_top (readW s ch))

/-- set_next_flag (wmalloc.h lines 467-484): same discipline applied to the
trailing word at `ch + curr_chunk_size - 8`. -/
def set_next_flag (s : State) (ch flag : Nat) : State :=
  let address := (ch + readW s (ch + 8) + W64 - 8) % W64
  if flag = 1 then writeW s address (readW s address % TOP)
  else writeW s address (xor_top (readW s address))

/-- set_unavailable (wmalloc.h lines 491-513): toggle the flag bit of the
neighbor words describing `ch` (the C source also computes a dead local
`chunk_size`, omitted here).  The flag argument 0 selects the xor path. -/
def set_unavailable (s : State) (ch : Nat) : State :=
  let s1 := if get_prev_chunk_size s ch ≠ 0 then set_next_flag s (get_prev_chunk s ch) 0 else s
  if get_next_chunk_size s1 ch ≠ 0 then set_prev_flag s1 (get_next_chunk s1 ch) 0 else s1

/-- set_available (wmalloc.h lines 520-541): clear the flag bit of the
neighbor words describing `ch` (flag argument 1 selects the mask path). -/
def set_available (s : State) (ch : Nat) : State :=
  let s1 := if get_prev_chunk_size s ch ≠ 0 then set_next_flag s (get_prev_chunk s ch) 1 else s
  if get_next_chunk_size s1 ch ≠ 0 then set_prev_flag s1 (get_next_chunk s1 ch) 1 else s1

/-- set_adjacent_sizes (wmalloc.h lines 548-572): write `ch`-s size (plus the
flag when unavailable) into both neighbor words describing `ch`.  As in the
source, the previous neighbor is updated through set_next_chunk_size (flag
preserving) while the next neighbor-s leading word is assigned directly. -/
def set_adjacent_sizes (s : State) (ch available : Nat) : State :=
  let chunk_size := if available = 1 then readW s (ch + 8) else readW s (ch + 8) + TOP
  let s1 := if readW s ch ≠ 0 then set_next_chunk_size s (get_prev_chunk s ch) chunk_size else s
  if get_next_chunk_size s1 ch ≠ 0 then writeW s1 (get_next_chunk s1 ch) chunk_size else s1

/-- Address of `wmalloc_ptr->bin[i]` for `wmalloc_ptr = wp` (struct
wmalloc_info layout: 46 chunk pointers, then 46 32-byte dummy chunks, then
46 bin_index words). -/
def binArrAddr (wp i : Nat) : Nat := wp + 8 * i

/-- Address of `wmalloc_ptr->dummy[i]`. -/
def dummyAddr (wp i : Nat) : Nat := wp + 368 + 32 * i

/-- Address of `wmalloc_ptr->bin_index[i]`. -/
def binIdxAddr (wp i : Nat) : Nat := wp + 1840 + 8 * i

/-- The 46 bin bounds written by initialize_bin_indices (wmalloc.h lines
260-290): 40..128 by 8, 144..256 by 16, 288..512 by 32, 576..1024 by 64,
powers of two 2048..524288, then the 64-bit maximum. -/
def bin_bounds : List Nat :=
  List.range' 40 12 8 ++ List.range' 144 8 16 ++ List.range' 288 8 32 ++
  List.range' 576 8 64 ++
  [2048, 4096, 8192, 16384, 32768, 65536, 131072, 262144, 524288] ++
  [W64 - 1]

/-- initialize_bin_indices (wmalloc.h lines 260-290) as the loop writing the
table into the info struct at `wp`. -/
def init_bin_indices (s : State) (wp : Nat) : State :=
  (List.range NUM_BINS).foldl
    (fun t i => writeW t (binIdxAddr wp i) (bin_bounds.getD i 0)) s

/-- initialize_wmalloc (wmalloc.h lines 224-246): move the break via the
sbrk oracle, assign the result to `wmalloc_ptr` (even on failure, exactly
as the C assignment does), return -1 on the failure sentinel; otherwise
zero each dummy-s size and links, point each bin at its dummy, and fill the
bound table. -/
def init_wmalloc (s : State) : State × Int :=
  let r := s.sbrks.headD (W64 - 1)
  let s0 : State := { s with sbrks := s.sbrks.tail, wmalloc_ptr := r }
  if r = W64 - 1 then (s0, -1)
  else
    let s1 := (List.range NUM_BINS).foldl
      (fun t i =>
        let t1 := writeW t (dummyAddr r i + 8) 0
        let t2 := writeW t1 (dummyAddr r i + 16) 0
        let t3 := writeW t2 (dummyAddr r i + 24) 0
        writeW t3 (binArrAddr r i) (dummyAddr r i)) s0
    (init_bin_indices s1 r, 1)

/-- The scan of add_chunk (wmalloc.h lines 583-586): smallest index whose
bound is at least the chunk size; fuelled (the table always ends with the
64-bit maximum, which stops the C loop at index 45). -/
def add_scan (s : State) (wp sz i : Nat) : Nat → Nat
  | 0 => i
  | f + 1 =>
    if sz > readW s (binIdxAddr wp i) then add_scan s wp sz (i + 1) f else i

/-- The walk of insert_in_place (wmalloc.h lines 597-628): splice `to_add`
before the first strictly larger element, else append at the tail. -/
def insert_go (s : State) (to_add prev curr : Nat) : Nat → State
  | 0 => s
  | f + 1 =>
    if curr ≠ 0 then
      if readW s (to_add + 8) < readW s (curr + 8) then
        let s1 := writeW s (prev + 24) to_add
        let s2 := writeW s1 (curr + 16) to_add
        let s3 := writeW s2 (to_add + 24) curr
        writeW s3 (to_add + 16) prev
      else insert_go s to_add curr (readW s (curr + 24)) f
    else
      let s1 := writeW s (prev + 24) to_add
      let s2 := writeW s1 (to_add + 16) prev
      writeW s2 (to_add + 24) 0

/-- insert_in_place (wmalloc.h lines 597-628). -/
def insert_in_place (s : State) (head to_add : Nat) : State :=
  insert_go s to_add head (readW s (head + 24)) 1000

/-- add_chunk (wmalloc.h lines 579-592): find the bin for the chunk-s own
size (scan starting at index 0) and insert in place. -/
def add_chunk (s : State) (to_add : Nat) : State :=
  let i := add_scan s s.wmalloc_ptr (readW s (to_add + 8)) 0 47
  insert_in_place s (readW s (binArrAddr s.wmalloc_ptr i)) to_add

/-- The loop of find_bin (wmalloc.h lines 633-643), scanning from index 1
while `request_length > bin_index[i] and i < NUM_BINS`. -/
def find_bin_go (s : State) (wp req i : Nat) : Nat → Nat
  | 0 => i
  | f + 1 =>
    if req > readW s (binIdxAddr wp i) ∧ i < NUM_BINS then
      find_bin_go s wp req (i + 1) f
    else i

/-- find_bin (wmalloc.h lines 633-643). -/
def find_bin (s : State) (req : Nat) : Nat :=
  find_bin_go s s.wmalloc_ptr req 1 47

/-- remove_chunk (wmalloc.h lines 825-846): unlink from the doubly linked
list through the left neighbor (and right neighbor when present), then
clear the removed chunk-s links. -/
def remove_chunk (s : State) (to_remove : Nat) : State × Nat :=
  let left := readW s (to_remove + 16)
  let right := readW s (to_remove + 24)
  let s1 :=
    if right = 0 then writeW s (left + 24) 0
    else writeW (writeW s (left + 24) right) (right + 16) left
  let s2 := writeW s1 (to_remove + 24) 0
  let s3 := writeW s2 (to_remove + 16) 0
  (s3, to_remove)

/-- The value of the C `int request_length` parameter of search_bin as seen
by its `uint64_t` comparison: wmalloc passes the 64-bit necessary length,
the call truncates it to a 32-bit two-s-complement int, and the comparison
converts that int back to `uint64_t` (sign extension mod 2^64). -/
def int_of_u64 (n : Nat) : Nat :=
  let t := n % 4294967296
  if t < 2147483648 then t else W64 - 4294967296 + t

/-- The walk of search_bin (wmalloc.h lines 650-664).  Note that the walk
starts at the bin head itself, i.e. at the dummy node. -/
def search_go (s : State) (t curr : Nat) : Nat → State × Nat
  | 0 => (s, curr)
  | f + 1 =>
    if curr ≠ 0 then
      if readW s (curr + 8) ≥ t then remove_chunk s curr
      else search_go s t (readW s (curr + 24)) f
    else (s, 0)

/-- search_bin (wmalloc.h lines 650-664), with `t` the already-converted
value of the `int` parameter. -/
def search_bin (s : State) (i t : Nat) : State × Nat :=
  search_go s t (readW s (binArrAddr s.wmalloc_ptr i)) 1000

/-- The loop of check_bigger_bins (wmalloc.h lines 670-684). -/
def check_go (s : State) (i : Nat) : Nat → State × Nat
  | 0 => (s, 0)
  | f + 1 =>
    if i < NUM_BINS then
      let first := readW s (readW s (binArrAddr s.wmalloc_ptr i) + 24)
      if first ≠ 0 then remove_chunk s first
      else check_go s (i + 1) f
    else (s, 0)

/-- check_bigger_bins (wmalloc.h lines 670-684): first chunk of the first
nonempty bin above `i`. -/
def check_bigger_bins (s : State) (i : Nat) : State × Nat :=
  check_go s (i + 1) 47

/-- The region sizing computed inside allocate_chunk (wmalloc.h lines
762-769): MMAP_SIZE when the request fits, otherwise
`(required / PAGE_SIZE + 1) * PAGE_SIZE` in `uint64_t` arithmetic. -/
def mmap_length_of (required : Nat) : Nat :=
  if required ≤ MMAP_SIZE then MMAP_SIZE
  else (required / PAGE_SIZE + 1) * PAGE_SIZE % W64

/-- allocate_chunk (wmalloc.h lines 756-786): draw a region from the mmap
oracle; on the failure sentinel return NULL, otherwise stamp the fresh
chunk (leading word, own size, trailing word) and return it. -/
def allocate_chunk (s : State) (required : Nat) : State × Nat :=
  let len := mmap_length_of required
  let r := s.mmaps.headD (W64 - 1)
  let s0 : State := { s with mmaps := s.mmaps.tail }
  if r = W64 - 1 then (s0, 0)
  else
    let s1 := set_prev_chunk_size s0 r 0
    let s2 := writeW s1 (r + 8) len
    let s3 := set_next_chunk_size s2 r 0
    (s3, r)

/-- split_chunk (wmalloc.h lines 793-820): when the chunk holds at least
`required + MINIMUM_CHUNK_SIZE` bytes, cleave off the right part, stamp the
new boundary words (each preserving whatever flag bit the underlying word
already carries), give the right part the saved trailing size, and insert
it through add_chunk; in either case finish with set_unavailable. -/
def split_chunk (s : State) (to_remove required : Nat) : State :=
  let s9 :=
    if readW s (to_remove + 8) ≥ (required + MINIMUM_CHUNK_SIZE) % W64 then
      let next_chunk_size := (readW s (to_remove + 8) + W64 - required) % W64
      let save_chunk_size := get_next_chunk_size s to_remove
      let s1 := writeW s (to_remove + 8) required
      let s2 := set_next_chunk_size s1 to_remove next_chunk_size
      let new_chunk := (to_remove + readW s2 (to_remove + 8)) % W64
      let s3 := writeW s2 (new_chunk + 8) next_chunk_size
      let s4 := set_prev_chunk_size s3 new_chunk (readW s3 (to_remove + 8))
      let s5 := set_next_chunk_size s4 new_chunk save_chunk_size
      add_chunk s5 new_chunk
    else s
  set_unavailable s9 to_remove

/-- wmalloc (wmalloc.h lines 702-749): lazy initialization, compute the
necessary length (request + overhead in `uint64_t` arithmetic, clamped up
to the minimum), search the proper bin, then bigger bins, then the OS;
split whatever was obtained and hand out its address plus 16. -/
def wmalloc (s : State) (request_length : Nat) : State × Nat :=
  let initres : State × Int :=
    if s.wmalloc_ptr = 0 then init_wmalloc s else (s, 1)
  let sA := initres.1
  if initres.2 = -1 then (sA, 0)
  else
    let necessary0 := (request_length + CHUNK_OVERHEAD) % W64
    let necessary :=
      if necessary0 < MINIMUM_CHUNK_SIZE then MINIMUM_CHUNK_SIZE else necessary0
    let i := find_bin sA necessary
    let sr1 := search_bin sA i (int_of_u64 necessary)
    let sr2 := if sr1.2 = 0 then check_bigger_bins sr1.1 i else sr1
    let sr3 := if sr2.2 = 0 then allocate_chunk sr2.1 necessary else sr2
    let sE := split_chunk sr3.1 sr3.2 necessary
    (sE, (sr3.2 + 16) % W64)

/-- join_chunks (wmalloc.h lines 886-894): sum the sizes into the first
chunk and refresh both outward neighbor words via set_adjacent_sizes. -/
def join_chunks (s : State) (first second : Nat) : State × Nat :=
  let total := (readW s (first + 8) + readW s (second + 8)) % W64
  let s1 := writeW s (first + 8) total
  (set_adjacent_sizes s1 first 1, first)

/-- wfree (wmalloc.h lines 852-878): step back 16 bytes to the chunk, mark
it available in its neighbors, join with the previous neighbor when that is
available, then with the next, and return the result to its bin. -/
def wfree (s : State) (to_free : Nat) : State :=
  let ch := (to_free + W64 - 16) % W64
  let s1 := set_available s ch
  let pj : State × Nat :=
    if is_prev_available s1 ch = 1 then
      let rp := remove_chunk s1 (get_prev_chunk s1 ch)
      join_chunks rp.1 rp.2 ch
    else (s1, ch)
  let nj : State × Nat :=
    if is_next_available pj.1 pj.2 = 1 then
      let rn := remove_chunk pj.1 (get_next_chunk pj.1 pj.2)
      join_chunks rn.1 pj.2 rn.2
    else pj
  add_chunk nj.1 nj.2

/-- A fresh process state: zeroed memory (anonymous mappings and the fresh
data segment are zero-filled), uninitialized `wmalloc_ptr`, and the given
OS oracles. -/
def initialState (sbrks mmaps : List Nat) : State :=
  { mem := fun _ => 0, wmalloc_ptr := 0, sbrks := sbrks, mmaps := mmaps }

/-
  Concrete scenario states used by the claims.  Throughout, the sbrk
  oracle places the info struct at 1048576 (2^20) and the mmap oracle
  places the first region at 2097152 (2^21); the two areas are disjoint,
  as the corresponding OS primitives guarantee.
-/

/-
  Concrete executions used by the claims.  Throughout, the sbrk oracle
  places the info struct at 1048576 (2^20) and the mmap oracle places the
  first region at 2097152 (2^21); the two areas are disjoint, as the
  corresponding OS primitives guarantee.
-/

/-- C1 run: first call on a fresh engine (every bin empty) with the mmap
oracle returning the failure sentinel. -/
def c1_run : State × Nat := wmalloc (initialState [1048576] [W64 - 1]) 1

/-- C2 run: first call requesting 2^64 - 1 bytes. -/
def c2_run : State × Nat := wmalloc (initialState [1048576] [2097152]) (W64 - 1)

/-- C3 run: first call requesting 20 bytes, so necessary_length = 44. -/
def c3_run : State × Nat := wmalloc (initialState [1048576] [2097152]) 20

/-- C4 trace, step 1: allocate 200 bytes (chunk [2097152, +224), residue
[+224, +131072) free in bin 42). -/
def c4_s1 : State × Nat := wmalloc (initialState [1048576] [2097152]) 200

/-- C4 trace, step 2: the caller stores 2^63 at payload offset 40 of its
200-byte buffer (address 2097152 + 56), which the spec allows: the 200
payload bytes belong to the caller. -/
def c4_s2 : State := writeW c4_s1.1 (2097152 + 56) TOP

/-- C4 trace, step 3: release the buffer; the chunk coalesces with the
residue back into one free 131072-byte chunk whose interior still holds
the caller-written word. -/
def c4_s3 : State := wfree c4_s2 c4_s1.2

/-- C4 trace, step 4: allocate 40 bytes (necessary length 64).  split_chunk
writes the new internal boundary word at 2097152 + 56 with
set_next_chunk_size, which preserves the caller-written top bit, so the
dispensed chunk-s trailing word wrongly claims the free residue is in
use. -/
def c4_s4 : State × Nat := wmalloc c4_s3 40

/-- C4 trace, step 5: release the 40-byte buffer again.  is_next_available
reads the poisoned trailing word, sees flag 1, and skips coalescing. -/
def c4_s5 : State := wfree c4_s4.1 c4_s4.2

/-- C7 runs: the sbrk oracle fails on the first call; a second sbrk result
is available but, as the theorem shows, is never consumed. -/
def c7_r1 : State × Nat := wmalloc (initialState [W64 - 1, 1048576] []) 1

/-- C7 second call after the failed initialization. -/
def c7_r2 : State × Nat := wmalloc c7_r1.1 1

/-- C8 run: freshly initialized engine, every bin empty, request
4294967272 = 2^32 - 24 bytes, so necessary_length = 2^32. -/
def c8_run : State × Nat := wmalloc (initialState [1048576] []) 4294967272

/-- C9 counterexample prefix: four 24-byte allocations carve chunks of
size 48 at 2097152 + 0, +48, +96, +144; freeing the first and third
leaves bin 1 holding the two equal-sized free chunks [2097152, +48) and
[2097152+96, +144) in insertion order. -/
def c9x_1 : State × Nat := wmalloc (initialState [1048576] [2097152]) 24

/-- C9 counterexample prefix, second allocation. -/
def c9x_2 : State × Nat := wmalloc c9x_1.1 24

/-- C9 counterexample prefix, third allocation. -/
def c9x_3 : State × Nat := wmalloc c9x_2.1 24

/-- C9 counterexample prefix, fourth allocation (keeps the third chunk-s
right neighbor in use). -/
def c9x_4 : State × Nat := wmalloc c9x_3.1 24

/-- C9 counterexample prefix: free the first chunk. -/
def c9x_5 : State := wfree c9x_4.1 c9x_1.2

/-- C9 counterexample prefix: free the third chunk; bin 1 is now
[2097152, 2097152+96] in that order. -/
def c9x_6 : State := wfree c9x_5 c9x_3.2

/-- C9 round trip, first allocation: returns the first-fit chunk 2097152. -/
def c9x_7 : State × Nat := wmalloc c9x_6 24

/-- C9 round trip: immediate release; insert_in_place re-inserts the
size-48 chunk after the equal-sized chunk already in bin 1. -/
def c9x_8 : State := wfree c9x_7.1 c9x_7.2

/-- C9 round trip, second allocation: first fit is now the other chunk. -/
def c9x_9 : State × Nat := wmalloc c9x_8 24

/-- C9 amended-claim run: fresh engine, allocate 1 byte. -/
def c9_t1 : State × Nat := wmalloc (initialState [1048576] [2097152, 4194304]) 1

/-- C9 amended-claim run: immediate release. -/
def c9_t2 : State := wfree c9_t1.1 c9_t1.2

/-- C9 amended-claim run: allocate 1 byte again. -/
def c9_t3 : State × Nat := wmalloc c9_t2 1

/-- C10 trace, step 1: allocate 200 bytes on a fresh engine. -/
def c10_s1 : State × Nat := wmalloc (initialState [1048576] [2097152]) 200

/-- C10 trace, step 2: the caller stores 2^63 at payload offset 48 of its
buffer (address 2097152 + 64), which the spec allows. -/
def c10_s2 : State := writeW c10_s1.1 (2097152 + 64) TOP

/-- C10 trace, step 3: release; the engine again holds one free
131072-byte chunk whose interior keeps the caller-written word. -/
def c10_s3 : State := wfree c10_s2 c10_s1.2

/-- C10 trace, step 4: allocate 40 bytes (necessary length 64).  The split
places the residue header exactly at 2097152 + 64: set_prev_chunk_size
preserves the caller-written top bit, so when set_unavailable runs, the
residue-s boundary word describing the dispensed chunk has its top bit
already set — the situation the claim says never occurs — and the XOR of
set_prev_flag( , 0) toggles it to 0, marking the dispensed chunk free. -/
def c10_s4 : State × Nat := wmalloc c10_s3 40

/-- The initialized engine used by the C5 scenario. -/
def c5_base : State := (init_wmalloc (initialState [1048576] [])).1

/-- The pure counterpart of the add_chunk scan over the initialized bound
table: smallest index whose bound is at least the chunk size. -/
def pure_scan (sz i : Nat) : Nat → Nat
  | 0 => i
  | f + 1 => if sz > bin_bounds.getD i 0 then pure_scan sz (i + 1) f else i

/-- The bin that add_chunk selects for a free chunk of size `sz` on an
initialized engine. -/
def addBinOf (sz : Nat) : Nat := pure_scan sz 0 47

/-- The C5 scenario pre-state: an initialized engine (all bins empty) and a
region holding an in-use previous chunk of size 48 ending at 2147483648
(own-size word at 2147483608 = b - 40, trailing word describing C at
2147483640 = b - 8, recording size Sc with flag 0 since C is free), the
candidate free chunk C at b = 2147483648 of size Sc (leading word 48 + TOP:
previous neighbor in use; trailing word 56 + TOP at b + Sc - 8: next
neighbor in use with size 56), and the next neighbor-s leading word at
b + Sc recording Sc with flag 0. -/
def c5_pre (Sc : Nat) : State :=
  writeW (writeW (writeW (writeW (writeW (writeW c5_base
    2147483608 48)
    2147483640 Sc)
    2147483648 (48 + TOP))
    (2147483648 + 8) Sc)
    (2147483640 + Sc) (56 + TOP))
    (2147483648 + Sc) Sc

/-- Split scenario, step 1: `to_remove->curr_chunk_size = required_length`. -/
def c5_S1 (Sc R : Nat) : State := writeW (c5_pre Sc) (2147483648 + 8) R

/-- Step 2: set_next_chunk_size stamps the new internal boundary word. -/
def c5_S2 (Sc R : Nat) : State := writeW (c5_S1 Sc R) (2147483640 + R) (Sc - R)

/-- Step 3: the residue-s own size word. -/
def c5_S3 (Sc R : Nat) : State := writeW (c5_S2 Sc R) (2147483648 + R + 8) (Sc - R)

/-- Step 4: set_prev_chunk_size on the residue (the garbage flag there is 0
in this scenario). -/
def c5_S4 (Sc R : Nat) : State := writeW (c5_S3 Sc R) (2147483648 + R) R

/-- Step 5: the residue inherits the saved trailing word (size 56, flag
preserved, i.e. the word is written back unchanged as 56 + TOP). -/
def c5_S5 (Sc R : Nat) : State := writeW (c5_S4 Sc R) (2147483640 + Sc) (56 + TOP)

/-- Step 6: insert_in_place links the residue as the sole chunk of its bin:
the bin sentinel-s right pointer. -/
def c5_S6 (Sc R : Nat) : State :=
  writeW (c5_S5 Sc R) (dummyAddr 1048576 (addBinOf (Sc - R)) + 24) (2147483648 + R)

/-- Step 7: the residue-s left pointer. -/
def c5_S7 (Sc R : Nat) : State :=
  writeW (c5_S6 Sc R) (2147483648 + R + 16) (dummyAddr 1048576 (addBinOf (Sc - R)))

/-- Step 8: the residue-s right pointer. -/
def c5_S8 (Sc R : Nat) : State := writeW (c5_S7 Sc R) (2147483648 + R + 24) 0

/-- Step 9: set_unavailable toggles the previous neighbor-s trailing word. -/
def c5_S9 (Sc R : Nat) : State := writeW (c5_S8 Sc R) 2147483640 (Sc + TOP)

/-- Step 10 = final: set_unavailable toggles the residue-s leading word. -/
def c5_final (Sc R : Nat) : State := writeW (c5_S9 Sc R) (2147483648 + R) (R + TOP)

/-- No-split scenario, step 1: set_unavailable toggles the previous
neighbor-s trailing word. -/
def c5_N1 (Sc : Nat) : State := writeW (c5_pre Sc) 2147483640 (Sc + TOP)

/-- No-split final state: set_unavailable also toggles the next neighbor-s
leading word. -/
def c5_final_ns (Sc : Nat) : State := writeW (c5_N1 Sc) (2147483648 + Sc) (Sc + TOP)

/-- The state after running split_chunk on the C5 scenario. -/
def c5_post (Sc R : Nat) : State := split_chunk (c5_pre Sc) 2147483648 R

/-- C5 counterexample trace, step 1: allocate 200 bytes on a fresh engine. -/
def c5x_s1 : State × Nat := wmalloc (initialState [1048576] [2097152]) 200

/-- C5 counterexample trace, step 2: the caller stores 2^63 at payload
offset 48 of its buffer (address 2097152 + 64). -/
def c5x_s2 : State := writeW c5x_s1.1 (2097152 + 64) TOP

/-- C5 counterexample trace, step 3: release; one free 131072-byte chunk
remains, with the caller-written word in its interior. -/
def c5x_s3 : State := wfree c5x_s2 c5x_s1.2

/-- C5 counterexample trace, step 4: allocate 40 bytes, splitting the free
chunk at required size 64. -/
def c5x_s4 : State × Nat := wmalloc c5x_s3 40

/-- C1: the claim says that when no bin holds a suitable chunk and mmap
fails, wmalloc returns NULL.  It does not: wmalloc never tests the NULL
result of allocate_chunk, feeds it straight into split_chunk (whose
`assert(to_remove != NULL)` aborts the process when assertions are
enabled, and which manipulates memory near address 0 under NDEBUG), and
then returns `(uint64_t)NULL + 16 = 16`, a non-null garbage pointer.
The model executes the NDEBUG reading (reads of unmapped words give 0)
and exhibits the returned value 16. -/
theorem C1_mmap_failure_returns_nonnull : c1_run.2 = 16 ∧ c1_run.2 ≠ 0 := by decide

/-- C2: the claim says any non-null result points at `n` writable bytes
(chunk size at least `n + 24`).  For `n = 2^64 - 1` the computation
`necessary_length = n + 24` wraps to 23, is clamped up to 40, and wmalloc
hands out a non-null pointer to a 40-byte chunk (16 payload bytes), far
below `n + 24`. -/
theorem C2_overflow_dispenses_small_chunk :
    c2_run.2 = 2097152 + 16 ∧ c2_run.2 ≠ 0 ∧
    readW c2_run.1 (2097152 + 8) = 40 ∧
    40 < (W64 - 1) + CHUNK_OVERHEAD := by decide

/-- C3: the claim says every chunk size the engine manages is a multiple
of 8 (and at least 40).  wmalloc never rounds `request + 24` up to a word
multiple: a request of 20 bytes makes split_chunk cleave the fresh 131072
byte region into a dispensed chunk of size 44 and a free residue of size
131028 (placed in bin 42), neither a multiple of 8. -/
theorem C3_unaligned_chunk_sizes :
    c3_run.2 = 2097152 + 16 ∧
    readW c3_run.1 (2097152 + 8) = 44 ∧ ¬ (8 ∣ 44) ∧
    readW c3_run.1 (2097152 + 44 + 8) = 131028 ∧ ¬ (8 ∣ 131028) ∧
    readW c3_run.1 (dummyAddr 1048576 42 + 24) = 2097152 + 44 := by decide

/-- C4: the claim says no two memory-adjacent chunks are ever both free
(every release coalesces with free neighbors).  After the five-step trace
above the engine holds the chunk [2097152, +64) free in bin 3 and the
memory-adjacent chunk [2097152+64, +131072) free in bin 42: two adjacent
free chunks, because the caller-written flag bit inherited by the split
boundary made wfree skip the join. -/
theorem C4_two_adjacent_free_chunks :
    readW c4_s5 (2097152 + 8) = 64 ∧
    readW c4_s5 (2097152 + 64 + 8) = 131008 ∧
    readW c4_s5 (dummyAddr 1048576 3 + 24) = 2097152 ∧
    readW c4_s5 (dummyAddr 1048576 42 + 24) = 2097152 + 64 ∧
    2097152 + readW c4_s5 (2097152 + 8) = 2097152 + 64 ∧
    readW c4_s5 (2097152 + 56) = 131008 + TOP := by decide

/-- C7: the claim says that on program-break failure allocate returns null,
the engine remains uninitialized, and a later call retries initialization.
Only the first part holds: initialize_wmalloc assigns the sbrk result to
`wmalloc_ptr` before testing it, so after the failure `wmalloc_ptr` is the
sentinel `(void * ) -1`, not NULL; the second call therefore skips
initialization entirely (the second sbrk oracle entry is still unconsumed)
and runs against wild addresses, returning the garbage pointer 16. -/
theorem C7_failed_init_not_retried :
    c7_r1.2 = 0 ∧
    c7_r1.1.wmalloc_ptr = W64 - 1 ∧
    c7_r1.1.wmalloc_ptr ≠ 0 ∧
    c7_r2.1.sbrks = [1048576] ∧
    c7_r2.2 = 16 := by decide

/-- C8: the claim says a bin sentinel (size-0 dummy) is never selected and
removed by the bin search.  search_bin takes its threshold as a C `int`:
necessary_length 2^32 truncates to int 0, the walk starts at the sentinel
itself, `0 >= 0` holds, and remove_chunk is invoked on the bin-45 sentinel
(writing through its NULL left pointer, a crash in practice); wmalloc then
dispenses sentinel + 16 to the caller. -/
theorem C8_sentinel_dispensed :
    int_of_u64 ((4294967272 + CHUNK_OVERHEAD) % W64) = 0 ∧
    c8_run.2 = dummyAddr 1048576 45 + 16 := by decide

/-- C9: the claim says allocate(n); release; allocate(n) from any engine
state returns the same pointer without a new OS region.  From the (fully
reachable) state `c9x_6` the round trip returns 2097152 + 16 first and
2097152 + 112 second: re-insertion places the freed chunk after the other
equal-sized free chunk, so the second search selects the other chunk.  No
new OS region is acquired (the single oracle entry was consumed by the
very first allocation of the prefix). -/
theorem C9_second_allocation_differs :
    c9x_7.2 = 2097152 + 16 ∧
    c9x_9.2 = 2097152 + 112 ∧
    c9x_7.2 ≠ c9x_9.2 ∧
    c9x_9.1.mmaps = [] := by decide

/-- C9 amended: from the fresh engine state (the spec-s own end-to-end
scenario 1), allocate 1 byte, release, allocate 1 byte returns the same
pointer, and the second allocation consumes no new OS region: the second
mmap oracle entry is still pending afterwards. -/
theorem C9_fresh_roundtrip :
    c9_t1.2 = 2097152 + 16 ∧
    c9_t3.2 = c9_t1.2 ∧
    c9_t3.1.mmaps = [4194304] := by decide

/-- C10: the claim says that whenever split_chunk marks the dispensed
chunk in use, each neighbor boundary word describing it has a clear top
bit at that moment.  In the trace above the word at 2097152 + 64 still
holds the caller-written 2^63 when the split runs (first conjunct);
set_prev_chunk_size then writes `64 + 2^63` there (top bit set at the
moment set_unavailable executes), and the XOR flips it to plain 64: after
the allocation returns the non-null pointer 2097152 + 16, its right
neighbor-s boundary word has flag 0, i.e. the dispensed chunk is recorded
as free, not in use. -/
theorem C10_flag_bit_set_at_split :
    readW c10_s3 (2097152 + 64) = TOP ∧
    c10_s4.2 = 2097152 + 16 ∧
    readW c10_s4.1 (2097152 + 64) = 64 ∧
    64 < TOP := by decide

/-- C6 counterexample: for the required length 131073 (just above
MMAP_SIZE) the code computes `(131073 / 4096 + 1) * 4096 = 135168` = 33
pages, while the claimed formula, one page more than the rounded-up
quotient, gives `(ceil(131073/4096) + 1) * 4096 = 139264` = 34 pages. -/
theorem C6_ceiling_formula_fails :
    MMAP_SIZE < 131073 ∧
    mmap_length_of 131073 = 135168 ∧
    ((131073 + 4095) / 4096 + 1) * 4096 = 139264 ∧
    mmap_length_of 131073 ≠ ((131073 + 4095) / 4096 + 1) * 4096 := by decide

/-- C6 amended: if the required length is at most MMAP_SIZE the region is
exactly MMAP_SIZE; otherwise (below the overflow threshold) the region is
a page multiple, strictly larger than the request, and exceeds it by at
most one page — i.e. `(floor(R / page) + 1)` pages — and this agrees with
the claimed `ceil(R / page) + 1` pages exactly when R is itself a page
multiple. -/
theorem C6_region_sizing (R : Nat) :
    (R ≤ MMAP_SIZE → mmap_length_of R = MMAP_SIZE) ∧
    (MMAP_SIZE < R → R < W64 - PAGE_SIZE →
      (PAGE_SIZE ∣ mmap_length_of R ∧ R < mmap_length_of R ∧
       mmap_length_of R ≤ R + PAGE_SIZE ∧
       (PAGE_SIZE ∣ R →
         mmap_length_of R = ((R + PAGE_SIZE - 1) / PAGE_SIZE + 1) * PAGE_SIZE))) := by
  unfold mmap_length_of MMAP_SIZE PAGE_SIZE W64
  constructor
  · intro h
    rw [if_pos h]
  · intro h1 h2
    rw [if_neg (by omega)]
    have hm : (R / 4096 + 1) * 4096 % 18446744073709551616 = (R / 4096 + 1) * 4096 := by
      apply Nat.mod_eq_of_lt
      omega
    rw [hm]
    refine ⟨⟨R / 4096 + 1, by ring⟩, by omega, by omega, ?_⟩
    intro hdvd
    omega

/-- C6 witness: the amended statement instantiated at R = 131073. -/
theorem C6_region_sizing_witness :
    (MMAP_SIZE < 131073 ∧ 131073 < W64 - PAGE_SIZE) ∧
    (PAGE_SIZE ∣ mmap_length_of 131073 ∧ 131073 < mmap_length_of 131073 ∧
     mmap_length_of 131073 ≤ 131073 + PAGE_SIZE ∧
     (PAGE_SIZE ∣ 131073 →
       mmap_length_of 131073 = ((131073 + PAGE_SIZE - 1) / PAGE_SIZE + 1) * PAGE_SIZE)) :=
  ⟨by decide, (C6_region_sizing 131073).2 (by decide) (by decide)⟩

theorem readW_writeW_ne (s : State) (a v x : Nat) (h : x ≠ a) :
    readW (writeW s a v) x = readW s x := by
  simp [readW, writeW, h]

theorem readW_writeW_self (s : State) (a v : Nat) (h : v < W64) :
    readW (writeW s a v) a = v := by
  simp [readW, writeW, Nat.mod_eq_of_lt h]

theorem writeW_wmalloc_ptr (s : State) (a v : Nat) :
    (writeW s a v).wmalloc_ptr = s.wmalloc_ptr := rfl

theorem readW_foldl_of_ne {A : Type} (l : List A) (fn : State → A → State) (x : Nat)
    (h : ∀ t a, a ∈ l → readW (fn t a) x = readW t x) :
    ∀ s : State, readW (l.foldl fn s) x = readW s x := by
  induction l with
  | nil => intro s; rfl
  | cons a as ih =>
    intro s
    simp only [List.foldl_cons]
    rw [ih (fun t b hb => h t b (List.mem_cons_of_mem _ hb)) (fn s a)]
    exact h s a (List.mem_cons_self _ _)

theorem c5_base_high_zero (x : Nat) (h : 1050784 ≤ x) : readW c5_base x = 0 := by
  unfold c5_base init_wmalloc
  simp only [show ((initialState [1048576] []).sbrks.headD (W64 - 1)) = 1048576 from rfl]
  rw [if_neg (by decide)]
  simp only [init_bin_indices]
  rw [readW_foldl_of_ne]
  · rw [readW_foldl_of_ne]
    · rfl
    · intro t a ha
      have ha46 : a < 46 := List.mem_range.mp ha
      rw [readW_writeW_ne, readW_writeW_ne, readW_writeW_ne, readW_writeW_ne]
      all_goals (simp only [dummyAddr, binArrAddr]; omega)
  · intro t a ha
    have ha46 : a < 46 := List.mem_range.mp ha
    rw [readW_writeW_ne]
    simp only [binIdxAddr]
    omega

theorem c5_base_table (k : Nat) (h : k < 46) :
    readW c5_base (binIdxAddr 1048576 k) = bin_bounds.getD k 0 := by
  revert k h
  decide

theorem c5_base_dummy_right (k : Nat) (h : k < 46) :
    readW c5_base (dummyAddr 1048576 k + 24) = 0 := by
  revert k h
  decide

theorem c5_base_bin_arr (k : Nat) (h : k < 46) :
    readW c5_base (binArrAddr 1048576 k) = dummyAddr 1048576 k := by
  revert k h
  decide

theorem c5_base_wp : c5_base.wmalloc_ptr = 1048576 := by decide

theorem bb45 : bin_bounds.getD 45 0 = W64 - 1 := by decide

theorem add_scan_eq_pure (s : State) (sz : Nat)
    (htab : ∀ k, k < 46 → readW s (binIdxAddr 1048576 k) = bin_bounds.getD k 0)
    (hsz : sz ≤ bin_bounds.getD 45 0) :
    ∀ fuel i, i ≤ 45 → add_scan s 1048576 sz i fuel = pure_scan sz i fuel := by
  intro fuel
  induction fuel with
  | zero => intro i _; rfl
  | succ f ih =>
    intro i hi
    show (if sz > readW s (binIdxAddr 1048576 i) then add_scan s 1048576 sz (i + 1) f else i) =
      (if sz > bin_bounds.getD i 0 then pure_scan sz (i + 1) f else i)
    rw [htab i (by omega)]
    by_cases hgt : sz > bin_bounds.getD i 0
    · rw [if_pos hgt, if_pos hgt]
      apply ih
      rcases Nat.lt_or_ge i 45 with h | h
      · omega
      · exfalso
        have hi45 : i = 45 := by omega
        rw [hi45] at hgt
        omega
    · rw [if_neg hgt, if_neg hgt]

theorem pure_scan_le (sz : Nat) (hsz : sz ≤ bin_bounds.getD 45 0) :
    ∀ fuel i, i ≤ 45 → pure_scan sz i fuel ≤ 45 := by
  intro fuel
  induction fuel with
  | zero => intro i hi; exact hi
  | succ f ih =>
    intro i hi
    show (if sz > bin_bounds.getD i 0 then pure_scan sz (i + 1) f else i) ≤ 45
    by_cases hgt : sz > bin_bounds.getD i 0
    · rw [if_pos hgt]
      apply ih
      rcases Nat.lt_or_ge i 45 with h | h
      · omega
      · exfalso
        have hi45 : i = 45 := by omega
        rw [hi45] at hgt
        omega
    · rw [if_neg hgt]; exact hi

theorem c5_pre_zero (Sc x : Nat)
    (h1 : x ≠ 2147483608) (h2 : x ≠ 2147483640) (h3 : x ≠ 2147483648)
    (h4 : x ≠ 2147483648 + 8) (h5 : x ≠ 2147483640 + Sc) (h6 : x ≠ 2147483648 + Sc)
    (hx : 1050784 ≤ x) :
    readW (c5_pre Sc) x = 0 := by
  unfold c5_pre
  rw [readW_writeW_ne _ _ _ _ h6, readW_writeW_ne _ _ _ _ h5, readW_writeW_ne _ _ _ _ h4,
    readW_writeW_ne _ _ _ _ h3, readW_writeW_ne _ _ _ _ h2, readW_writeW_ne _ _ _ _ h1]
  exact c5_base_high_zero x hx

theorem c5_pre_b8 (Sc : Nat) (hS : 40 ≤ Sc) (hSc : Sc < 1073741824) :
    readW (c5_pre Sc) (2147483648 + 8) = Sc := by
  unfold c5_pre
  rw [readW_writeW_ne _ _ _ _ (by omega), readW_writeW_ne _ _ _ _ (by omega)]
  exact readW_writeW_self _ _ _ (by simp only [W64]; omega)

theorem c5_pre_b (Sc : Nat) (hS : 40 ≤ Sc) (hSc : Sc < 1073741824) :
    readW (c5_pre Sc) 2147483648 = 48 + TOP := by
  unfold c5_pre
  rw [readW_writeW_ne _ _ _ _ (by omega), readW_writeW_ne _ _ _ _ (by omega),
    readW_writeW_ne _ _ _ _ (by omega)]
  exact readW_writeW_self _ _ _ (by simp only [W64, TOP]; omega)

theorem c5_pre_bm8 (Sc : Nat) (hS : 40 ≤ Sc) (hSc : Sc < 1073741824) :
    readW (c5_pre Sc) 2147483640 = Sc := by
  unfold c5_pre
  rw [readW_writeW_ne _ _ _ _ (by omega), readW_writeW_ne _ _ _ _ (by omega),
    readW_writeW_ne _ _ _ _ (by omega), readW_writeW_ne _ _ _ _ (by omega)]
  exact readW_writeW_self _ _ _ (by simp only [W64]; omega)

theorem c5_pre_bm40 (Sc : Nat) (hS : 40 ≤ Sc) (hSc : Sc < 1073741824) :
    readW (c5_pre Sc) 2147483608 = 48 := by
  unfold c5_pre
  rw [readW_writeW_ne _ _ _ _ (by omega), readW_writeW_ne _ _ _ _ (by omega),
    readW_writeW_ne _ _ _ _ (by omega), readW_writeW_ne _ _ _ _ (by omega),
    readW_writeW_ne _ _ _ _ (by omega)]
  exact readW_writeW_self _ _ _ (by simp only [W64]; omega)

theorem c5_pre_tr (Sc : Nat) :
    readW (c5_pre Sc) (2147483640 + Sc) = 56 + TOP := by
  unfold c5_pre
  rw [readW_writeW_ne _ _ _ _ (by omega)]
  exact readW_writeW_self _ _ _ (by simp only [W64, TOP]; omega)

theorem c5_pre_nx (Sc : Nat) (hSc : Sc < 1073741824) :
    readW (c5_pre Sc) (2147483648 + Sc) = Sc := by
  unfold c5_pre
  exact readW_writeW_self _ _ _ (by simp only [W64]; omega)

theorem c5_pre_wp (Sc : Nat) : (c5_pre Sc).wmalloc_ptr = 1048576 := by
  unfold c5_pre
  rw [writeW_wmalloc_ptr, writeW_wmalloc_ptr, writeW_wmalloc_ptr, writeW_wmalloc_ptr,
    writeW_wmalloc_ptr, writeW_wmalloc_ptr]
  exact c5_base_wp

set_option maxHeartbeats 2000000 in
theorem c5_pre_table (Sc : Nat) (hSc : Sc < 1073741824) :
    ∀ k, k < 46 → readW (c5_pre Sc) (binIdxAddr 1048576 k) = bin_bounds.getD k 0 := by
  intro k hk
  unfold c5_pre
  rw [readW_writeW_ne _ _ _ _ (by simp only [binIdxAddr]; omega),
    readW_writeW_ne _ _ _ _ (by simp only [binIdxAddr]; omega),
    readW_writeW_ne _ _ _ _ (by simp only [binIdxAddr]; omega),
    readW_writeW_ne _ _ _ _ (by simp only [binIdxAddr]; omega),
    readW_writeW_ne _ _ _ _ (by simp only [binIdxAddr]; omega),
    readW_writeW_ne _ _ _ _ (by simp only [binIdxAddr]; omega)]
  exact c5_base_table k hk

set_option maxHeartbeats 2000000 in
theorem c5_pre_bin_arr (Sc : Nat) :
    ∀ k, k < 46 → readW (c5_pre Sc) (binArrAddr 1048576 k) = dummyAddr 1048576 k := by
  intro k hk
  unfold c5_pre
  rw [readW_writeW_ne _ _ _ _ (by simp only [binArrAddr]; omega),
    readW_writeW_ne _ _ _ _ (by simp only [binArrAddr]; omega),
    readW_writeW_ne _ _ _ _ (by simp only [binArrAddr]; omega),
    readW_writeW_ne _ _ _ _ (by simp only [binArrAddr]; omega),
    readW_writeW_ne _ _ _ _ (by simp only [binArrAddr]; omega),
    readW_writeW_ne _ _ _ _ (by simp only [binArrAddr]; omega)]
  exact c5_base_bin_arr k hk

set_option maxHeartbeats 2000000 in
theorem c5_pre_dummy_right (Sc : Nat) :
    ∀ k, k < 46 → readW (c5_pre Sc) (dummyAddr 1048576 k + 24) = 0 := by
  intro k hk
  unfold c5_pre
  rw [readW_writeW_ne _ _ _ _ (by simp only [dummyAddr]; omega),
    readW_writeW_ne _ _ _ _ (by simp only [dummyAddr]; omega),
    readW_writeW_ne _ _ _ _ (by simp only [dummyAddr]; omega),
    readW_writeW_ne _ _ _ _ (by simp only [dummyAddr]; omega),
    readW_writeW_ne _ _ _ _ (by simp only [dummyAddr]; omega),
    readW_writeW_ne _ _ _ _ (by simp only [dummyAddr]; omega)]
  exact c5_base_dummy_right k hk

theorem c5_e2 (Sc R : Nat) (hR : 40 ≤ R) (hRS : R + 40 ≤ Sc) (hSc : Sc < 1073741824) :
    set_next_chunk_size (c5_S1 Sc R) 2147483648 (Sc - R) = c5_S2 Sc R := by
  have ra : readW (c5_S1 Sc R) (2147483648 + 8) = R := by
    unfold c5_S1
    exact readW_writeW_self _ _ _ (by simp only [W64]; omega)
  have rfl0 : readW (c5_S1 Sc R) (2147483640 + R) = 0 := by
    unfold c5_S1
    rw [readW_writeW_ne _ _ _ _ (by omega)]
    exact c5_pre_zero Sc _ (by omega) (by omega) (by omega) (by omega) (by omega) (by omega)
      (by omega)
  simp only [set_next_chunk_size, ra]
  simp only [show (2147483648 + R + W64 - 8) % W64 = 2147483640 + R from by
    simp only [W64]; omega]
  rw [rfl0]
  norm_num [c5_S2]

theorem c5_r2 (Sc R : Nat) (hR : 40 ≤ R) (hRS : R + 40 ≤ Sc) (hSc : Sc < 1073741824) :
    readW (c5_S2 Sc R) (2147483648 + 8) = R := by
  unfold c5_S2 c5_S1
  rw [readW_writeW_ne _ _ _ _ (by omega)]
  exact readW_writeW_self _ _ _ (by simp only [W64]; omega)

theorem c5_r3 (Sc R : Nat) (hR : 40 ≤ R) (hRS : R + 40 ≤ Sc) (hSc : Sc < 1073741824) :
    readW (c5_S3 Sc R) (2147483648 + 8) = R := by
  unfold c5_S3
  rw [readW_writeW_ne _ _ _ _ (by omega)]
  exact c5_r2 Sc R hR hRS hSc

theorem c5_e4 (Sc R : Nat) (hR : 40 ≤ R) (hRS : R + 40 ≤ Sc) (hSc : Sc < 1073741824) :
    set_prev_chunk_size (c5_S3 Sc R) (2147483648 + R) R = c5_S4 Sc R := by
  have rg : readW (c5_S3 Sc R) (2147483648 + R) = 0 := by
    unfold c5_S3 c5_S2 c5_S1
    rw [readW_writeW_ne _ _ _ _ (by omega), readW_writeW_ne _ _ _ _ (by omega),
      readW_writeW_ne _ _ _ _ (by omega)]
    exact c5_pre_zero Sc _ (by omega) (by omega) (by omega) (by omega) (by omega) (by omega)
      (by omega)
  simp only [set_prev_chunk_size, rg]
  norm_num [c5_S4]

theorem c5_hsave (Sc : Nat) (hS : 40 ≤ Sc) (hSc : Sc < 1073741824) :
    get_next_chunk_size (c5_pre Sc) 2147483648 = 56 := by
  simp only [get_next_chunk_size, c5_pre_b8 Sc hS hSc]
  simp only [show (2147483648 + Sc + W64 - 8) % W64 = 2147483640 + Sc from by
    simp only [W64]; omega]
  rw [c5_pre_tr Sc]
  norm_num [TOP]

theorem c5_e5 (Sc R : Nat) (hR : 40 ≤ R) (hRS : R + 40 ≤ Sc) (hSc : Sc < 1073741824) :
    set_next_chunk_size (c5_S4 Sc R) (2147483648 + R) 56 = c5_S5 Sc R := by
  have r48 : readW (c5_S4 Sc R) (2147483648 + R + 8) = Sc - R := by
    unfold c5_S4 c5_S3
    rw [readW_writeW_ne _ _ _ _ (by omega)]
    exact readW_writeW_self _ _ _ (by simp only [W64]; omega)
  have rt : readW (c5_S4 Sc R) (2147483640 + Sc) = 56 + TOP := by
    unfold c5_S4 c5_S3 c5_S2 c5_S1
    rw [readW_writeW_ne _ _ _ _ (by omega), readW_writeW_ne _ _ _ _ (by omega),
      readW_writeW_ne _ _ _ _ (by omega), readW_writeW_ne _ _ _ _ (by omega)]
    exact c5_pre_tr Sc
  simp only [set_next_chunk_size, r48]
  simp only [show (2147483648 + R + (Sc - R) + W64 - 8) % W64 = 2147483640 + Sc from by
    simp only [W64]; omega]
  rw [rt]
  have hflag : (56 + TOP) / TOP * TOP = TOP := by norm_num [TOP]
  rw [hflag]
  rfl

theorem insert_go_zero (s : State) (to_add prev : Nat) :
    insert_go s to_add prev 0 1000 =
      writeW (writeW (writeW s (prev + 24) to_add) (to_add + 16) prev) (to_add + 24) 0 := rfl

theorem c5_eadd (Sc R : Nat) (hR : 40 ≤ R) (hRS : R + 40 ≤ Sc) (hSc : Sc < 1073741824) :
    add_chunk (c5_S5 Sc R) (2147483648 + R) = c5_S8 Sc R := by
  have hwp5 : (c5_S5 Sc R).wmalloc_ptr = 1048576 := by
    unfold c5_S5 c5_S4 c5_S3 c5_S2 c5_S1
    rw [writeW_wmalloc_ptr, writeW_wmalloc_ptr, writeW_wmalloc_ptr, writeW_wmalloc_ptr,
      writeW_wmalloc_ptr]
    exact c5_pre_wp Sc
  have r58 : readW (c5_S5 Sc R) (2147483648 + R + 8) = Sc - R := by
    unfold c5_S5 c5_S4 c5_S3
    rw [readW_writeW_ne _ _ _ _ (by omega), readW_writeW_ne _ _ _ _ (by omega)]
    exact readW_writeW_self _ _ _ (by simp only [W64]; omega)
  have htab5 : ∀ k, k < 46 → readW (c5_S5 Sc R) (binIdxAddr 1048576 k) = bin_bounds.getD k 0 := by
    intro k hk
    unfold c5_S5 c5_S4 c5_S3 c5_S2 c5_S1
    rw [readW_writeW_ne _ _ _ _ (by simp only [binIdxAddr]; omega),
      readW_writeW_ne _ _ _ _ (by simp only [binIdxAddr]; omega),
      readW_writeW_ne _ _ _ _ (by simp only [binIdxAddr]; omega),
      readW_writeW_ne _ _ _ _ (by simp only [binIdxAddr]; omega),
      readW_writeW_ne _ _ _ _ (by simp only [binIdxAddr]; omega)]
    exact c5_pre_table Sc hSc k hk
  have hsz : Sc - R ≤ bin_bounds.getD 45 0 := by rw [bb45]; simp only [W64]; omega
  have hscan : add_scan (c5_S5 Sc R) 1048576 (Sc - R) 0 47 = addBinOf (Sc - R) :=
    add_scan_eq_pure (c5_S5 Sc R) (Sc - R) htab5 hsz 47 0 (by omega)
  have hj : addBinOf (Sc - R) ≤ 45 := pure_scan_le (Sc - R) hsz 47 0 (by omega)
  have harr : readW (c5_S5 Sc R) (binArrAddr 1048576 (addBinOf (Sc - R))) =
      dummyAddr 1048576 (addBinOf (Sc - R)) := by
    unfold c5_S5 c5_S4 c5_S3 c5_S2 c5_S1
    rw [readW_writeW_ne _ _ _ _ (by simp only [binArrAddr]; omega),
      readW_writeW_ne _ _ _ _ (by simp only [binArrAddr]; omega),
      readW_writeW_ne _ _ _ _ (by simp only [binArrAddr]; omega),
      readW_writeW_ne _ _ _ _ (by simp only [binArrAddr]; omega),
      readW_writeW_ne _ _ _ _ (by simp only [binArrAddr]; omega)]
    exact c5_pre_bin_arr Sc _ (by omega)
  have hdum : readW (c5_S5 Sc R) (dummyAddr 1048576 (addBinOf (Sc - R)) + 24) = 0 := by
    unfold c5_S5 c5_S4 c5_S3 c5_S2 c5_S1
    rw [readW_writeW_ne _ _ _ _ (by simp only [dummyAddr]; omega),
      readW_writeW_ne _ _ _ _ (by simp only [dummyAddr]; omega),
      readW_writeW_ne _ _ _ _ (by simp only [dummyAddr]; omega),
      readW_writeW_ne _ _ _ _ (by simp only [dummyAddr]; omega),
      readW_writeW_ne _ _ _ _ (by simp only [dummyAddr]; omega)]
    exact c5_pre_dummy_right Sc _ (by omega)
  simp only [add_chunk, hwp5, r58, hscan, harr]
  simp only [insert_in_place, hdum]
  rw [insert_go_zero]
  rfl

theorem c5_eun (Sc R : Nat) (hR : 40 ≤ R) (hRS : R + 40 ≤ Sc) (hSc : Sc < 1073741824) :
    set_unavailable (c5_S8 Sc R) 2147483648 = c5_final Sc R := by
  have hj : addBinOf (Sc - R) ≤ 45 := by
    apply pure_scan_le
    · rw [bb45]; simp only [W64]; omega
    · omega
  have hgp : get_prev_chunk_size (c5_S8 Sc R) 2147483648 = 48 := by
    have rb : readW (c5_S8 Sc R) 2147483648 = 48 + TOP := by
      unfold c5_S8 c5_S7 c5_S6 c5_S5 c5_S4 c5_S3 c5_S2 c5_S1
      rw [readW_writeW_ne _ _ _ _ (by omega), readW_writeW_ne _ _ _ _ (by omega),
        readW_writeW_ne _ _ _ _ (by simp only [dummyAddr]; omega),
        readW_writeW_ne _ _ _ _ (by omega), readW_writeW_ne _ _ _ _ (by omega),
        readW_writeW_ne _ _ _ _ (by omega), readW_writeW_ne _ _ _ _ (by omega),
        readW_writeW_ne _ _ _ _ (by omega)]
      exact c5_pre_b Sc (by omega) hSc
    simp only [get_prev_chunk_size, rb]
    norm_num [TOP]
  have hgpc : get_prev_chunk (c5_S8 Sc R) 2147483648 = 2147483600 := by
    simp only [get_prev_chunk, hgp]
    simp only [W64]
  have esnf : set_next_flag (c5_S8 Sc R) 2147483600 0 = c5_S9 Sc R := by
    have r8a : readW (c5_S8 Sc R) (2147483600 + 8) = 48 := by
      show readW (c5_S8 Sc R) 2147483608 = 48
      unfold c5_S8 c5_S7 c5_S6 c5_S5 c5_S4 c5_S3 c5_S2 c5_S1
      rw [readW_writeW_ne _ _ _ _ (by omega), readW_writeW_ne _ _ _ _ (by omega),
        readW_writeW_ne _ _ _ _ (by simp only [dummyAddr]; omega),
        readW_writeW_ne _ _ _ _ (by omega), readW_writeW_ne _ _ _ _ (by omega),
        readW_writeW_ne _ _ _ _ (by omega), readW_writeW_ne _ _ _ _ (by omega),
        readW_writeW_ne _ _ _ _ (by omega)]
      exact c5_pre_bm40 Sc (by omega) hSc
    have r8b : readW (c5_S8 Sc R) 2147483640 = Sc := by
      unfold c5_S8 c5_S7 c5_S6 c5_S5 c5_S4 c5_S3 c5_S2 c5_S1
      rw [readW_writeW_ne _ _ _ _ (by omega), readW_writeW_ne _ _ _ _ (by omega),
        readW_writeW_ne _ _ _ _ (by simp only [dummyAddr]; omega),
        readW_writeW_ne _ _ _ _ (by omega), readW_writeW_ne _ _ _ _ (by omega),
        readW_writeW_ne _ _ _ _ (by omega), readW_writeW_ne _ _ _ _ (by omega),
        readW_writeW_ne _ _ _ _ (by omega)]
      exact c5_pre_bm8 Sc (by omega) hSc
    simp only [set_next_flag, r8a]
    simp only [show (2147483600 + 48 + W64 - 8) % W64 = 2147483640 from by
      simp only [W64]]
    rw [if_neg (by omega)]
    rw [r8b]
    have hxor : xor_top Sc = Sc + TOP := by
      unfold xor_top
      rw [if_pos (by simp only [TOP]; omega)]
    rw [hxor]
    rfl
  have hr98 : readW (c5_S9 Sc R) (2147483648 + 8) = R := by
    unfold c5_S9 c5_S8 c5_S7 c5_S6 c5_S5 c5_S4 c5_S3 c5_S2
    rw [readW_writeW_ne _ _ _ _ (by omega), readW_writeW_ne _ _ _ _ (by omega),
      readW_writeW_ne _ _ _ _ (by omega),
      readW_writeW_ne _ _ _ _ (by simp only [dummyAddr]; omega),
      readW_writeW_ne _ _ _ _ (by omega), readW_writeW_ne _ _ _ _ (by omega),
      readW_writeW_ne _ _ _ _ (by omega), readW_writeW_ne _ _ _ _ (by omega)]
    unfold c5_S1
    exact readW_writeW_self _ _ _ (by simp only [W64]; omega)
  have hgn : get_next_chunk_size (c5_S9 Sc R) 2147483648 = Sc - R := by
    have rbd : readW (c5_S9 Sc R) (2147483640 + R) = Sc - R := by
      unfold c5_S9 c5_S8 c5_S7 c5_S6 c5_S5 c5_S4 c5_S3
      rw [readW_writeW_ne _ _ _ _ (by omega), readW_writeW_ne _ _ _ _ (by omega),
        readW_writeW_ne _ _ _ _ (by omega),
        readW_writeW_ne _ _ _ _ (by simp only [dummyAddr]; omega),
        readW_writeW_ne _ _ _ _ (by omega), readW_writeW_ne _ _ _ _ (by omega),
        readW_writeW_ne _ _ _ _ (by omega)]
      unfold c5_S2
      exact readW_writeW_self _ _ _ (by simp only [W64]; omega)
    simp only [get_next_chunk_size, hr98]
    simp only [show (2147483648 + R + W64 - 8) % W64 = 2147483640 + R from by
      simp only [W64]; omega]
    rw [rbd]
    simp only [TOP]
    omega
  have hgnc : get_next_chunk (c5_S9 Sc R) 2147483648 = 2147483648 + R := by
    simp only [get_next_chunk, hr98]
    simp only [W64]
    omega
  have espf : set_prev_flag (c5_S9 Sc R) (2147483648 + R) 0 = c5_final Sc R := by
    have r9r : readW (c5_S9 Sc R) (2147483648 + R) = R := by
      unfold c5_S9 c5_S8 c5_S7 c5_S6 c5_S5 c5_S4
      rw [readW_writeW_ne _ _ _ _ (by omega), readW_writeW_ne _ _ _ _ (by omega),
        readW_writeW_ne _ _ _ _ (by omega),
        readW_writeW_ne _ _ _ _ (by simp only [dummyAddr]; omega),
        readW_writeW_ne _ _ _ _ (by omega)]
      exact readW_writeW_self _ _ _ (by simp only [W64]; omega)
    simp only [set_prev_flag]
    rw [if_neg (by omega)]
    rw [r9r]
    have hxor : xor_top R = R + TOP := by
      unfold xor_top
      rw [if_pos (by simp only [TOP]; omega)]
    rw [hxor]
    rfl
  simp only [set_unavailable, hgp, hgpc]
  rw [if_pos (show (48:Nat) ≠ 0 by omega)]
  rw [esnf]
  simp only [hgn, hgnc]
  rw [if_pos (show Sc - R ≠ 0 by omega)]
  exact espf

theorem c5_split_eq (Sc R : Nat) (hR : 40 ≤ R) (hRS : R + 40 ≤ Sc) (hSc : Sc < 1073741824) :
    split_chunk (c5_pre Sc) 2147483648 R = c5_final Sc R := by
  simp only [split_chunk]
  simp only [c5_pre_b8 Sc (by omega) hSc]
  rw [if_pos (by simp only [MINIMUM_CHUNK_SIZE, W64]; omega :
    Sc ≥ (R + MINIMUM_CHUNK_SIZE) % W64)]
  simp only [show (Sc + W64 - R) % W64 = Sc - R from by simp only [W64]; omega]
  simp only [show writeW (c5_pre Sc) (2147483648 + 8) R = c5_S1 Sc R from rfl]
  simp only [c5_e2 Sc R hR hRS hSc]
  simp only [c5_r2 Sc R hR hRS hSc]
  simp only [show (2147483648 + R) % W64 = 2147483648 + R from by simp only [W64]; omega]
  simp only [show writeW (c5_S2 Sc R) (2147483648 + R + 8) (Sc - R) = c5_S3 Sc R from rfl]
  simp only [c5_r3 Sc R hR hRS hSc]
  simp only [c5_e4 Sc R hR hRS hSc]
  simp only [c5_hsave Sc (by omega) hSc]
  simp only [c5_e5 Sc R hR hRS hSc]
  simp only [c5_eadd Sc R hR hRS hSc]
  exact c5_eun Sc R hR hRS hSc

theorem c5_nosplit_eq (Sc R : Nat) (hR : 40 ≤ R) (hRS : R ≤ Sc) (hNS : Sc < R + 40)
    (hSc : Sc < 1073741824) :
    split_chunk (c5_pre Sc) 2147483648 R = c5_final_ns Sc := by
  simp only [split_chunk]
  simp only [c5_pre_b8 Sc (by omega) hSc]
  rw [if_neg (by simp only [MINIMUM_CHUNK_SIZE, W64]; omega)]
  have hgp : get_prev_chunk_size (c5_pre Sc) 2147483648 = 48 := by
    simp only [get_prev_chunk_size, c5_pre_b Sc (by omega) hSc]
    norm_num [TOP]
  have hgpc : get_prev_chunk (c5_pre Sc) 2147483648 = 2147483600 := by
    simp only [get_prev_chunk, hgp]
    simp only [W64]
  have esnf : set_next_flag (c5_pre Sc) 2147483600 0 = c5_N1 Sc := by
    have r8a : readW (c5_pre Sc) (2147483600 + 8) = 48 := by
      show readW (c5_pre Sc) 2147483608 = 48
      exact c5_pre_bm40 Sc (by omega) hSc
    simp only [set_next_flag, r8a]
    simp only [show (2147483600 + 48 + W64 - 8) % W64 = 2147483640 from by
      simp only [W64]]
    rw [if_neg (by omega)]
    rw [c5_pre_bm8 Sc (by omega) hSc]
    have hxor : xor_top Sc = Sc + TOP := by
      unfold xor_top
      rw [if_pos (by simp only [TOP]; omega)]
    rw [hxor]
    rfl
  have hr18 : readW (c5_N1 Sc) (2147483648 + 8) = Sc := by
    unfold c5_N1
    rw [readW_writeW_ne _ _ _ _ (by omega)]
    exact c5_pre_b8 Sc (by omega) hSc
  have hgn : get_next_chunk_size (c5_N1 Sc) 2147483648 = 56 := by
    simp only [get_next_chunk_size, hr18]
    simp only [show (2147483648 + Sc + W64 - 8) % W64 = 2147483640 + Sc from by
      simp only [W64]; omega]
    have rt : readW (c5_N1 Sc) (2147483640 + Sc) = 56 + TOP := by
      unfold c5_N1
      rw [readW_writeW_ne _ _ _ _ (by omega)]
      exact c5_pre_tr Sc
    rw [rt]
    norm_num [TOP]
  have hgnc : get_next_chunk (c5_N1 Sc) 2147483648 = 2147483648 + Sc := by
    simp only [get_next_chunk, hr18]
    simp only [W64]
    omega
  have espf : set_prev_flag (c5_N1 Sc) (2147483648 + Sc) 0 = c5_final_ns Sc := by
    have rn : readW (c5_N1 Sc) (2147483648 + Sc) = Sc := by
      unfold c5_N1
      rw [readW_writeW_ne _ _ _ _ (by omega)]
      exact c5_pre_nx Sc hSc
    simp only [set_prev_flag]
    rw [if_neg (by omega)]
    rw [rn]
    have hxor : xor_top Sc = Sc + TOP := by
      unfold xor_top
      rw [if_pos (by simp only [TOP]; omega)]
    rw [hxor]
    rfl
  simp only [set_unavailable, hgp, hgpc]
  rw [if_pos (show (48:Nat) ≠ 0 by omega)]
  rw [esnf]
  simp only [hgn, hgnc]
  rw [if_pos (show (56:Nat) ≠ 0 by omega)]
  exact espf

set_option maxHeartbeats 1000000 in
/-- C5 (amended): for every candidate free chunk C of size Sc and required
total size R (40 ≤ R ≤ Sc, sizes below 2^30; C sits at 2147483648 between
an in-use size-48 predecessor and an in-use size-56 successor, and the
words at the future internal boundary carry clear top bits, as on bytes
the caller never wrote): if Sc ≥ R + 40, split_chunk leaves a left part of
size exactly R (its own-size word), a right part of size Sc - R whose
own-size word sits at the split point, inserted into the bin that
add_chunk selects for Sc - R (the bin sentinel-s right pointer holds it
and its linkage words point back at the sentinel); the right part
inherits C-s original trailing-neighbor word 56 + TOP unchanged; if
Sc < R + 40 no split happens and C-s size stays Sc; in either case the
dispensed chunk is marked in use in both neighbors-s flag words (the
predecessor-s trailing word and the following chunk-s leading word each
get the top bit set).  Without the clear-top-bit proviso the marking
conjunct fails on reachable states: see the C5 counterexample. -/
theorem C5_split_contract (Sc R : Nat) (hR : 40 ≤ R) (hRS : R ≤ Sc) (hSc : Sc < 1073741824) :
    (R + 40 ≤ Sc →
      (readW (c5_post Sc R) (2147483648 + 8) = R ∧
       readW (c5_post Sc R) (2147483648 + R + 8) = Sc - R ∧
       readW (c5_post Sc R) (2147483640 + Sc) = 56 + TOP ∧
       readW (c5_post Sc R) (dummyAddr 1048576 (addBinOf (Sc - R)) + 24) = 2147483648 + R ∧
       readW (c5_post Sc R) (2147483648 + R + 16) = dummyAddr 1048576 (addBinOf (Sc - R)) ∧
       readW (c5_post Sc R) (2147483648 + R + 24) = 0 ∧
       readW (c5_post Sc R) 2147483640 = Sc + TOP ∧
       readW (c5_post Sc R) (2147483648 + R) = R + TOP)) ∧
    (Sc < R + 40 →
      (readW (c5_post Sc R) (2147483648 + 8) = Sc ∧
       readW (c5_post Sc R) 2147483640 = Sc + TOP ∧
       readW (c5_post Sc R) (2147483648 + Sc) = Sc + TOP)) := by
  constructor
  · intro hsp
    have hj : addBinOf (Sc - R) ≤ 45 := by
      apply pure_scan_le
      · rw [bb45]; simp only [W64]; omega
      · omega
    have heq : c5_post Sc R = c5_final Sc R := c5_split_eq Sc R hR hsp hSc
    rw [heq]
    unfold c5_final c5_S9 c5_S8 c5_S7 c5_S6 c5_S5 c5_S4 c5_S3 c5_S2 c5_S1
    refine ⟨?_, ?_, ?_, ?_, ?_, ?_, ?_, ?_⟩
    · rw [readW_writeW_ne _ _ _ _ (by omega), readW_writeW_ne _ _ _ _ (by omega),
        readW_writeW_ne _ _ _ _ (by omega), readW_writeW_ne _ _ _ _ (by omega),
        readW_writeW_ne _ _ _ _ (by simp only [dummyAddr]; omega),
        readW_writeW_ne _ _ _ _ (by omega), readW_writeW_ne _ _ _ _ (by omega),
        readW_writeW_ne _ _ _ _ (by omega), readW_writeW_ne _ _ _ _ (by omega)]
      exact readW_writeW_self _ _ _ (by simp only [W64]; omega)
    · rw [readW_writeW_ne _ _ _ _ (by omega), readW_writeW_ne _ _ _ _ (by omega),
        readW_writeW_ne _ _ _ _ (by omega), readW_writeW_ne _ _ _ _ (by omega),
        readW_writeW_ne _ _ _ _ (by simp only [dummyAddr]; omega),
        readW_writeW_ne _ _ _ _ (by omega), readW_writeW_ne _ _ _ _ (by omega)]
      exact readW_writeW_self _ _ _ (by simp only [W64]; omega)
    · rw [readW_writeW_ne _ _ _ _ (by omega), readW_writeW_ne _ _ _ _ (by omega),
        readW_writeW_ne _ _ _ _ (by omega), readW_writeW_ne _ _ _ _ (by omega),
        readW_writeW_ne _ _ _ _ (by simp only [dummyAddr]; omega)]
      exact readW_writeW_self _ _ _ (by simp only [W64, TOP]; omega)
    · rw [readW_writeW_ne _ _ _ _ (by simp only [dummyAddr]; omega),
        readW_writeW_ne _ _ _ _ (by simp only [dummyAddr]; omega),
        readW_writeW_ne _ _ _ _ (by simp only [dummyAddr]; omega),
        readW_writeW_ne _ _ _ _ (by simp only [dummyAddr]; omega)]
      exact readW_writeW_self _ _ _ (by simp only [W64]; omega)
    · rw [readW_writeW_ne _ _ _ _ (by omega), readW_writeW_ne _ _ _ _ (by omega),
        readW_writeW_ne _ _ _ _ (by omega)]
      exact readW_writeW_self _ _ _ (by simp only [dummyAddr, W64]; omega)
    · rw [readW_writeW_ne _ _ _ _ (by omega), readW_writeW_ne _ _ _ _ (by omega)]
      exact readW_writeW_self _ _ _ (by simp only [W64]; omega)
    · rw [readW_writeW_ne _ _ _ _ (by omega)]
      exact readW_writeW_self _ _ _ (by simp only [W64, TOP]; omega)
    · exact readW_writeW_self _ _ _ (by simp only [W64, TOP]; omega)
  · intro hns
    have heq : c5_post Sc R = c5_final_ns Sc := c5_nosplit_eq Sc R hR hRS hns hSc
    rw [heq]
    unfold c5_final_ns c5_N1
    refine ⟨?_, ?_, ?_⟩
    · rw [readW_writeW_ne _ _ _ _ (by omega), readW_writeW_ne _ _ _ _ (by omega)]
      exact c5_pre_b8 Sc (by omega) hSc
    · rw [readW_writeW_ne _ _ _ _ (by omega)]
      exact readW_writeW_self _ _ _ (by simp only [W64, TOP]; omega)
    · exact readW_writeW_self _ _ _ (by simp only [W64, TOP]; omega)

/-- C5 witness: the amended split contract at Sc = 256, R = 48. -/
theorem C5_split_contract_witness :
    (40 ≤ 48 ∧ 48 ≤ 256 ∧ 256 < 1073741824 ∧ 48 + 40 ≤ 256) ∧
    (readW (c5_post 256 48) (2147483648 + 8) = 48 ∧
     readW (c5_post 256 48) (2147483648 + 48 + 8) = 256 - 48 ∧
     readW (c5_post 256 48) (2147483640 + 256) = 56 + TOP ∧
     readW (c5_post 256 48) (dummyAddr 1048576 (addBinOf (256 - 48)) + 24) = 2147483648 + 48 ∧
     readW (c5_post 256 48) (2147483648 + 48 + 16) = dummyAddr 1048576 (addBinOf (256 - 48)) ∧
     readW (c5_post 256 48) (2147483648 + 48 + 24) = 0 ∧
     readW (c5_post 256 48) 2147483640 = 256 + TOP ∧
     readW (c5_post 256 48) (2147483648 + 48) = 48 + TOP) :=
  ⟨by decide, (C5_split_contract 256 48 (by decide) (by decide) (by decide)).1 (by decide)⟩

/-- C5 counterexample: the claim as stated fails on the code.  In the
reachable state c5x_s3 the engine holds a candidate free chunk C at
2097152 of size Sc = 131072; allocating with required size R = 64 splits
it and returns the chunk at 2097152 non-null, but the right neighbor-s
(residue-s) leading flag word ends up as plain 64 - top bit clear - so
the returned chunk is recorded as free, not in use: the caller-written
2^63 at the residue header location was preserved by set_prev_chunk_size
and then toggled off by the XOR of set_prev_flag. -/
theorem C5_returned_chunk_marked_free :
    readW c5x_s3 (2097152 + 8) = 131072 ∧
    c5x_s4.2 = 2097152 + 16 ∧
    readW c5x_s4.1 (2097152 + 8) = 64 ∧
    readW c5x_s4.1 (2097152 + 64) = 64 ∧
    64 < TOP := by decide

end WMalloc
